import Mathlib

/-!
# Verification of the serverless GPS stream-processing demo

Shallow embedding of the repository's stream-processing core:

* the per-sensor state store (`shared/state-manager.ts`, and the older
  212-byte variant) with its fixed-size little-endian binary layout;
* the haversine distance / velocity calculator;
* the monolithic `GPSPipeline.process` (shared/gps-pipeline.ts) and the
  monolithic stream-consumer worker (`worker/gps-worker.ts`);
* the three multi-stage workers (position smoother, velocity calculator,
  velocity smoother) of the modular topology;
* the pending-entry recovery procedure of the worker.

IEEE-754 doubles that are only stored and moved are modelled by their
64-bit patterns (`Nat`); doubles that take part in arithmetic are
modelled by rationals (`ℚ`); the external DSP engine (dspx) is out of
scope for the repository and is modelled as an abstract stateful step
function parameter.
-/

/-! ## Little-endian byte encoding (Buffer.writeDoubleLE / writeUInt32LE)

A byte is a `Nat` below 256; `leEncode k v` is the `k`-byte little-endian
encoding of the bit pattern `v`, exactly as `Buffer.writeDoubleLE`
(`k = 8`) and `Buffer.writeUInt32LE` (`k = 4`) lay values out. -/

def leEncode : Nat → Nat → List Nat
  | 0, _ => []
  | k + 1, v => v % 256 :: leEncode k (v / 256)

def leDecode : List Nat → Nat
  | [] => 0
  | b :: bs => b + 256 * leDecode bs

/-- Read `k` bytes little-endian from the front of a buffer,
returning the value and the rest of the buffer. -/
def readLE (k : Nat) (b : List Nat) : Nat × List Nat :=
  (leDecode (b.take k), b.drop k)

/-! ## Application state (shared/state-manager.ts)

`AppState` holds the application-owned per-sensor state: the 5-slot
velocity circular buffer, the next-write index, the last-processed
timestamp and the previous smoothed position.  The numeric fields are
stored as their bit patterns, which is all serialization touches. -/

structure AppState where
  velocityBuffer : Fin 5 → Nat
  velocityIndex : Nat
  lastTimestamp : Nat
  prevLat : Nat
  prevLon : Nat
deriving DecidableEq

/-- A valid state: every double is a 64-bit pattern and the index is a
32-bit unsigned integer. -/
def AppState.wf (s : AppState) : Prop :=
  (∀ i, s.velocityBuffer i < 2 ^ 64) ∧ s.velocityIndex < 2 ^ 32 ∧
    s.lastTimestamp < 2 ^ 64 ∧ s.prevLat < 2 ^ 64 ∧ s.prevLon < 2 ^ 64

instance (s : AppState) : Decidable s.wf := by
  unfold AppState.wf; infer_instance

/-- `GPSStateManager.serializeAppState`: 5×8-byte doubles, a 4-byte
unsigned index, then 8-byte doubles for last timestamp and previous
lat/lon — 68 bytes, little-endian. -/
def serializeAppState (s : AppState) : List Nat :=
  leEncode 8 (s.velocityBuffer 0) ++ leEncode 8 (s.velocityBuffer 1) ++
  leEncode 8 (s.velocityBuffer 2) ++ leEncode 8 (s.velocityBuffer 3) ++
  leEncode 8 (s.velocityBuffer 4) ++
  leEncode 4 s.velocityIndex ++
  leEncode 8 s.lastTimestamp ++
  leEncode 8 s.prevLat ++
  leEncode 8 s.prevLon

/-- `GPSStateManager.deserializeAppState`: sequential little-endian reads
in the same order the serializer wrote. -/
def deserializeAppState (b : List Nat) : AppState :=
  let r0 := readLE 8 b
  let r1 := readLE 8 r0.2
  let r2 := readLE 8 r1.2
  let r3 := readLE 8 r2.2
  let r4 := readLE 8 r3.2
  let ri := readLE 4 r4.2
  let rt := readLE 8 ri.2
  let rla := readLE 8 rt.2
  let rlo := readLE 8 rla.2
  { velocityBuffer := ![r0.1, r1.1, r2.1, r3.1, r4.1]
    velocityIndex := ri.1
    lastTimestamp := rt.1
    prevLat := rla.1
    prevLon := rlo.1 }

/-- The not-found / initial result that `GPSStateManager.loadState`
(shared/state-manager.ts) returns when no 68-byte record exists:
zero velocity buffer, zero index, zero timestamp and position. -/
def initialLoadAppState : AppState :=
  { velocityBuffer := fun _ => 0, velocityIndex := 0, lastTimestamp := 0
    prevLat := 0, prevLon := 0 }

/-- `GPSStateManager.loadState` (shared/state-manager.ts): the stored
record is deserialized only when it is present and exactly 68 bytes
long; otherwise the initial (not-found) state is returned. -/
def loadState (appBuffer : Option (List Nat)) : AppState :=
  match appBuffer with
  | some b => if b.length = 68 then deserializeAppState b else initialLoadAppState
  | none => initialLoadAppState

/-- The older 212-byte per-sensor record of the monolithic worker's state
manager: state vector, covariance, velocity buffer, index, timestamp
(all doubles as 64-bit patterns, index a 32-bit unsigned). -/
structure KalmanStateB where
  x : Fin 4 → Nat
  P : Fin 16 → Nat
  velocityBuffer : Fin 5 → Nat
  velocityIndex : Nat
  lastTimestamp : Nat
deriving DecidableEq

/-- `GPSStateManager.deserializeState` (212-byte variant): little-endian
reads at the fixed offsets 0, 32, 160, 200 and 204. -/
def deserializeState (b : List Nat) : KalmanStateB :=
  { x := fun i => (readLE 8 (b.drop (8 * i.val))).1
    P := fun i => (readLE 8 (b.drop (32 + 8 * i.val))).1
    velocityBuffer := fun i => (readLE 8 (b.drop (160 + 8 * i.val))).1
    velocityIndex := (readLE 4 (b.drop 200)).1
    lastTimestamp := (readLE 8 (b.drop 204)).1 }

/-- `GPSStateManager.loadState` (212-byte variant): a missing record or a
record whose length is not exactly 212 bytes yields `none` and is never
deserialized. -/
def loadStateKalman (buffer : Option (List Nat)) : Option KalmanStateB :=
  match buffer with
  | some b => if b.length = 212 then some (deserializeState b) else none
  | none => none

/-! ## Haversine distance and velocity (shared/gps-pipeline.ts, stage 2)

The trigonometric primitives (`Math.sin`, …) and `Math.PI` are opaque to
this program; they are abstracted as a parameter record so that the
formula structure — which is what the program owns — is exact. -/

structure TrigOps where
  pi : ℚ
  sin : ℚ → ℚ
  cos : ℚ → ℚ
  atan2 : ℚ → ℚ → ℚ
  sqrt : ℚ → ℚ

def EARTH_RADIUS : ℚ := 6371000

/-- `haversineDistance` exactly as written in shared/gps-pipeline.ts and
in the velocity-calculator worker (the two copies are identical). -/
def haversineDistance (T : TrigOps) (lat1 lon1 lat2 lon2 : ℚ) : ℚ :=
  let dLat := (lat2 - lat1) * T.pi / 180
  let dLon := (lon2 - lon1) * T.pi / 180
  let a := T.sin (dLat / 2) * T.sin (dLat / 2) +
    T.cos (lat1 * T.pi / 180) * T.cos (lat2 * T.pi / 180) *
      T.sin (dLon / 2) * T.sin (dLon / 2)
  let c := 2 * T.atan2 (T.sqrt a) (T.sqrt (1 - a))
  EARTH_RADIUS * c

/-- The haversine great-circle distance as the spec words it (§4.1): with
latitudes/longitudes converted from degrees to radians, the haversine
term `a = sin²(Δφ/2) + cos φ₁ · cos φ₂ · sin²(Δλ/2)`, the central angle
`c = 2·atan2(√a, √(1−a))`, on a sphere of radius 6 371 000 m. -/
def haversineSpecDistance (T : TrigOps) (lat1 lon1 lat2 lon2 : ℚ) : ℚ :=
  let phi1 := lat1 * T.pi / 180
  let phi2 := lat2 * T.pi / 180
  let lam1 := lon1 * T.pi / 180
  let lam2 := lon2 * T.pi / 180
  let a := T.sin ((phi2 - phi1) / 2) * T.sin ((phi2 - phi1) / 2) +
    T.cos phi1 * T.cos phi2 * (T.sin ((lam2 - lam1) / 2) * T.sin ((lam2 - lam1) / 2))
  6371000 * (2 * T.atan2 (T.sqrt a) (T.sqrt (1 - a)))

/-! ## The DSP engine abstraction (dspx, out of scope per the spec §6)

A position engine consumes one `[lat, lon]` measurement with an
elapsed-time delta and returns the smoothed pair; a velocity engine
consumes the 5-sample window with a delta and returns the smoothed
velocity scalar (the code takes the last element of the engine's output
array).  Both are stateful; their internal state is an arbitrary type. -/

structure PosEngine (σ : Type) where
  step : σ → ℚ → ℚ → ℚ → σ × ℚ × ℚ

structure VelEngine (τ : Type) where
  step : τ → (Fin 5 → ℚ) → ℚ → τ × ℚ

/-! ## The monolithic pipeline (shared/gps-pipeline.ts) -/

def VELOCITY_WINDOW_SIZE : Nat := 5

def MOVEMENT_THRESHOLD : ℚ := 1 / 2

structure GPSPoint where
  lat : ℚ
  lon : ℚ
  timestamp : ℚ
deriving DecidableEq

/-- Application part of the per-sensor `KalmanState` used by the
monolithic pipeline: previous smoothed position `x[0], x[1]`, the
velocity circular buffer with its next-write index, and the last
processed timestamp (the covariance `P` is engine-internal and never
read by the pipeline logic). -/
structure KalmanState where
  x0 : ℚ
  x1 : ℚ
  velocityBuffer : Fin 5 → ℚ
  velocityIndex : Nat
  lastTimestamp : ℚ
deriving DecidableEq

/-- `GPSStateManager.createInitialState`: zero velocity buffer, index 0,
position set to the given fix, and — as the source does — the last
timestamp set to the given (current) timestamp. -/
def createInitialState (lat lon timestamp : ℚ) : KalmanState :=
  { x0 := lat, x1 := lon, velocityBuffer := fun _ => 0
    velocityIndex := 0, lastTimestamp := timestamp }

/-- `state.velocityBuffer[state.velocityIndex] = v` on a 5-slot typed
array: an in-bounds index updates the slot, an out-of-bounds write on a
`Float64Array` is silently discarded. -/
def writeBuffer (buf : Fin 5 → ℚ) (i : Nat) (v : ℚ) : Fin 5 → ℚ :=
  if h : i < 5 then Function.update buf ⟨i, h⟩ v else buf

/-- The final record published for one processed fix (`ProcessedResult`):
raw fix fields, smoothed position, instantaneous and smoothed velocity,
movement flag.  Processing-latency metadata and broker-assigned message
ids are delivery metadata and are not part of the compared value. -/
structure ProcessedResult where
  sensorId : String
  lat : ℚ
  lon : ℚ
  timestamp : ℚ
  smoothedLat : ℚ
  smoothedLon : ℚ
  velocity : ℚ
  smoothedVelocity : ℚ
  isMoving : Bool
deriving DecidableEq

structure ProcessedGPS where
  lat : ℚ
  lon : ℚ
  timestamp : ℚ
  smoothedLat : ℚ
  smoothedLon : ℚ
  velocity : ℚ
  smoothedVelocity : ℚ
  isMoving : Bool
deriving DecidableEq

/-- Result of one `GPSPipeline.process` call: the two engine states, the
processed record, the updated per-sensor state, and the elapsed-time
delta the call fed to the engines (exposed for inspection). -/
structure PipelineStep (σ τ : Type) where
  posES : σ
  velES : τ
  result : ProcessedGPS
  newState : KalmanState
  dt : ℚ

/-- `GPSPipeline.process` (shared/gps-pipeline.ts): compute the
elapsed-time delta (0.1 s default when no prior timestamp), smooth the
position through the Kalman engine, derive the instantaneous velocity
from the haversine distance between the previous and current smoothed
positions, update the circular buffer, smooth the velocity through the
moving-average engine, and flag movement above the 0.5 m/s threshold. -/
def GPSPipeline.process {σ τ : Type} (T : TrigOps) (E : PosEngine σ) (V : VelEngine τ)
    (es : σ) (vs : τ) (point : GPSPoint) (state : KalmanState) : PipelineStep σ τ :=
  let dt : ℚ :=
    if state.lastTimestamp > 0 then (point.timestamp - state.lastTimestamp) / 1000
    else 1 / 10
  let ps := E.step es point.lat point.lon dt
  let smoothedLat := ps.2.1
  let smoothedLon := ps.2.2
  let distance := haversineDistance T state.x0 state.x1 smoothedLat smoothedLon
  let instantVelocity := if dt > 0 then distance / dt else 0
  let buf := writeBuffer state.velocityBuffer state.velocityIndex instantVelocity
  let idx := (state.velocityIndex + 1) % VELOCITY_WINDOW_SIZE
  let vres := V.step vs buf dt
  let smoothedVelocity := vres.2
  let isMoving := decide (smoothedVelocity > MOVEMENT_THRESHOLD)
  { posES := ps.1
    velES := vres.1
    result :=
      { lat := point.lat, lon := point.lon, timestamp := point.timestamp
        smoothedLat := smoothedLat, smoothedLon := smoothedLon
        velocity := instantVelocity, smoothedVelocity := smoothedVelocity
        isMoving := isMoving }
    newState :=
      { x0 := smoothedLat, x1 := smoothedLon, velocityBuffer := buf
        velocityIndex := idx, lastTimestamp := point.timestamp }
    dt := dt }

/-! ## Worker messages, side-effect events -/

/-- A decoded entry of the raw input stream.  Field values arrive
string-encoded; a missing or unparseable numeric field decodes to `NaN`,
modelled as `none`; a missing `sensorId` is the empty (falsy) string. -/
structure RawMsg where
  sensorId : String
  lat : Option ℚ
  lon : Option ℚ
  timestamp : Option ℚ
deriving DecidableEq

/-- The validation applied by every worker:
`!sensorId || isNaN(lat) || isNaN(lon) || isNaN(timestamp)` rejects. -/
def RawMsg.valid (m : RawMsg) : Prop :=
  m.sensorId ≠ "" ∧ m.lat.isSome ∧ m.lon.isSome ∧ m.timestamp.isSome

instance (m : RawMsg) : Decidable m.valid := by
  unfold RawMsg.valid; infer_instance

/-- Side effects of a worker, in program order: per-sensor state-store
reads/writes, engine invocations (with the elapsed-time delta each was
given), intermediate-stream appends, result publishes, message
acknowledgements and pending-entry claims. -/
inductive WEvent where
  | stateLoad (sensorId : String)
  | stateSave (sensorId : String)
  | posStep (dt : ℚ)
  | velStep (dt : ℚ)
  | xaddOut (sensorId : String)
  | publish (r : ProcessedResult)
  | ack (messageId : String)
  | xclaim (messageId : String)
deriving DecidableEq

/-- The results published on the fan-out channel, in order, within an
event trace. -/
def publishedOf (evs : List WEvent) : List ProcessedResult :=
  evs.filterMap fun e =>
    match e with
    | WEvent.publish r => some r
    | _ => none

/-! ## The monolithic worker (worker/gps-worker.ts) -/

/-- Mutable context of the monolithic worker: the shared per-sensor state
store and the two engine states of its process-wide pipelines. -/
structure MonoWorld (σ τ : Type) where
  store : String → Option KalmanState
  posES : σ
  velES : τ

structure MonoResult (σ τ : Type) where
  world : MonoWorld σ τ
  events : List WEvent

/-- `GPSWorker.processMessage`: validate (malformed ⇒ acknowledge
immediately and stop), load the per-sensor state (create the initial
state when not found), run the pipeline, save the updated state, publish
the result, acknowledge. -/
def GPSWorker.processMessage {σ τ : Type} (T : TrigOps) (E : PosEngine σ) (V : VelEngine τ)
    (w : MonoWorld σ τ) (messageId : String) (m : RawMsg) : MonoResult σ τ :=
  match m.lat, m.lon, m.timestamp with
  | some lat, some lon, some ts =>
    if m.sensorId = "" then ⟨w, [WEvent.ack messageId]⟩
    else
      let state :=
        match w.store m.sensorId with
        | some s => s
        | none => createInitialState lat lon ts
      let step := GPSPipeline.process T E V w.posES w.velES ⟨lat, lon, ts⟩ state
      let r : ProcessedResult :=
        { sensorId := m.sensorId
          lat := step.result.lat, lon := step.result.lon
          timestamp := step.result.timestamp
          smoothedLat := step.result.smoothedLat, smoothedLon := step.result.smoothedLon
          velocity := step.result.velocity, smoothedVelocity := step.result.smoothedVelocity
          isMoving := step.result.isMoving }
      { world :=
          { store := Function.update w.store m.sensorId (some step.newState)
            posES := step.posES, velES := step.velES }
        events :=
          [WEvent.stateLoad m.sensorId, WEvent.posStep step.dt, WEvent.velStep step.dt,
            WEvent.stateSave m.sensorId, WEvent.publish r, WEvent.ack messageId] }
  | _, _, _ => ⟨w, [WEvent.ack messageId]⟩

/-- The read/process loop body over one delivered batch: messages are
processed sequentially, each through `GPSWorker.processMessage`. -/
def GPSWorker.run {σ τ : Type} (T : TrigOps) (E : PosEngine σ) (V : VelEngine τ)
    (w : MonoWorld σ τ) : List (String × RawMsg) → MonoResult σ τ
  | [] => ⟨w, []⟩
  | p :: rest =>
    let s := GPSWorker.processMessage T E V w p.1 p.2
    let r := GPSWorker.run T E V s.world rest
    ⟨r.world, s.events ++ r.events⟩

/-! ## Pending-entry recovery (`GPSWorker.recoverPendingMessages`) -/

/-- One entry of the consumer group's pending-entries list as returned by
`XPENDING`: message id, owning consumer, idle time in milliseconds,
delivery count. -/
structure PendingEntry where
  messageId : String
  consumerName : String
  idleTime : Nat
  deliveryCount : Nat
deriving DecidableEq

/-- `GPSWorker.recoverPendingMessages`: walk the pending entries; an
entry idle for less than 30 000 ms is skipped; otherwise the worker
issues `XCLAIM` under its own consumer name (the broker's reply — the
message's fields, or nothing if the claim returned empty — is the
`claimed` oracle) and, when the claim returns the message, feeds it to
`GPSWorker.processMessage` exactly like a fresh delivery. -/
def GPSWorker.recoverPendingMessages {σ τ : Type} (T : TrigOps) (E : PosEngine σ)
    (V : VelEngine τ) (claimed : String → Option RawMsg) (w : MonoWorld σ τ) :
    List PendingEntry → MonoResult σ τ
  | [] => ⟨w, []⟩
  | e :: rest =>
    if e.idleTime < 30000 then
      GPSWorker.recoverPendingMessages T E V claimed w rest
    else
      match claimed e.messageId with
      | none =>
        let r := GPSWorker.recoverPendingMessages T E V claimed w rest
        ⟨r.world, WEvent.xclaim e.messageId :: r.events⟩
      | some m =>
        let s := GPSWorker.processMessage T E V w e.messageId m
        let r := GPSWorker.recoverPendingMessages T E V claimed s.world rest
        ⟨r.world, WEvent.xclaim e.messageId :: (s.events ++ r.events)⟩

/-! ## Multi-stage topology (client/app.ts workers and the final stage)

Intermediate stream entries are written as string-encoded numbers and
parsed back with `parseFloat`; numbers produced by this program
round-trip that encoding, so intermediate messages are modelled with
their numeric fields directly. -/

/-- Entry of `gps:position-smoothed`, as written by the position
smoother. -/
structure Stage1Msg where
  sensorId : String
  lat : ℚ
  lon : ℚ
  smoothedLat : ℚ
  smoothedLon : ℚ
  timestamp : ℚ
deriving DecidableEq

/-- Entry of `gps:velocity-calculated`, as written by the velocity
calculator. -/
structure Stage2Msg where
  sensorId : String
  lat : ℚ
  lon : ℚ
  smoothedLat : ℚ
  smoothedLon : ℚ
  velocity : ℚ
  timestamp : ℚ
deriving DecidableEq

/-- Per-sensor state of the position smoother — kept only in a
process-local `Map` (`this.states`), never in the shared store. -/
structure PosSmootherState where
  lastTimestamp : ℚ
deriving DecidableEq

/-- Per-sensor state of the velocity calculator — kept only in a
process-local `Map` (`this.states`), never in the shared store. -/
structure VelocityState where
  lastLat : ℚ
  lastLon : ℚ
  lastTimestamp : ℚ
deriving DecidableEq

structure Stage1World (σ : Type) where
  states : String → Option PosSmootherState
  posES : σ

structure Stage1Result (σ : Type) where
  world : Stage1World σ
  events : List WEvent
  outs : List Stage1Msg

/-- `PositionSmootherWorker.processMessage`: validate (malformed ⇒
acknowledge only), compute the elapsed-time delta from the in-memory
per-sensor state (0.1 s when none, since the created state has
`lastTimestamp = 0`), run the Kalman engine, remember the timestamp,
append the smoothed entry to the next stream, acknowledge. -/
def PositionSmootherWorker.processMessage {σ : Type} (E : PosEngine σ)
    (w : Stage1World σ) (messageId : String) (m : RawMsg) : Stage1Result σ :=
  match m.lat, m.lon, m.timestamp with
  | some lat, some lon, some ts =>
    if m.sensorId = "" then ⟨w, [WEvent.ack messageId], []⟩
    else
      let st := (w.states m.sensorId).getD ⟨0⟩
      let dt : ℚ := if st.lastTimestamp > 0 then (ts - st.lastTimestamp) / 1000 else 1 / 10
      let ps := E.step w.posES lat lon dt
      { world :=
          { states := Function.update w.states m.sensorId (some ⟨ts⟩)
            posES := ps.1 }
        events := [WEvent.posStep dt, WEvent.xaddOut m.sensorId, WEvent.ack messageId]
        outs := [⟨m.sensorId, lat, lon, ps.2.1, ps.2.2, ts⟩] }
  | _, _, _ => ⟨w, [WEvent.ack messageId], []⟩

def PositionSmootherWorker.run {σ : Type} (E : PosEngine σ) (w : Stage1World σ) :
    List (String × RawMsg) → Stage1Result σ
  | [] => ⟨w, [], []⟩
  | p :: rest =>
    let s := PositionSmootherWorker.processMessage E w p.1 p.2
    let r := PositionSmootherWorker.run E s.world rest
    ⟨r.world, s.events ++ r.events, s.outs ++ r.outs⟩

structure Stage2World where
  states : String → Option VelocityState

structure Stage2Result where
  world : Stage2World
  events : List WEvent
  outs : List Stage2Msg

/-- `VelocityCalculatorWorker.processMessage`: with no in-memory state
for the sensor the published velocity is 0; otherwise it is the
haversine distance from the remembered smoothed position divided by the
elapsed time (0 when the elapsed time is not positive).  The smoothed
position and timestamp are remembered in the process-local map only. -/
def VelocityCalculatorWorker.processMessage (T : TrigOps) (w : Stage2World)
    (messageId : String) (m : Stage1Msg) : Stage2Result :=
  if m.sensorId = "" then ⟨w, [WEvent.ack messageId], []⟩
  else
    let velocity : ℚ :=
      match w.states m.sensorId with
      | none => 0
      | some st =>
        let distance := haversineDistance T st.lastLat st.lastLon m.smoothedLat m.smoothedLon
        let dt := (m.timestamp - st.lastTimestamp) / 1000
        if dt > 0 then distance / dt else 0
    let states' := Function.update w.states m.sensorId
      (some ⟨m.smoothedLat, m.smoothedLon, m.timestamp⟩)
    { world := { states := states' }
      events := [WEvent.xaddOut m.sensorId, WEvent.ack messageId]
      outs := [⟨m.sensorId, m.lat, m.lon, m.smoothedLat, m.smoothedLon, velocity, m.timestamp⟩] }

/-- The velocity calculator's batch loop; broker-assigned ids of the
intermediate stream do not influence any compared value and are modelled
as `""`. -/
def VelocityCalculatorWorker.run (T : TrigOps) (w : Stage2World) :
    List Stage1Msg → Stage2Result
  | [] => ⟨w, [], []⟩
  | m :: rest =>
    let s := VelocityCalculatorWorker.processMessage T w "" m
    let r := VelocityCalculatorWorker.run T s.world rest
    ⟨r.world, s.events ++ r.events, s.outs ++ r.outs⟩

/-- Per-sensor state of the velocity smoother (process-local). -/
structure VelSmootherState where
  velocityBuffer : Fin 5 → ℚ
  velocityIndex : Nat
  lastTimestamp : ℚ
deriving DecidableEq

structure Stage3World (τ : Type) where
  states : String → Option VelSmootherState
  velES : τ

structure Stage3Result (τ : Type) where
  world : Stage3World τ
  events : List WEvent

/-- Modelled from the spec: `worker/velocity-smoother.ts` is not present
under `src/` (only the architecture documents and §4.5 describe it).
Per those, stage 3 keeps a per-sensor 5-sample circular velocity buffer
in process memory, writes the incoming instantaneous velocity into the
buffer, runs the 1-D moving-average engine over the window with the
elapsed-time delta derived like the other stages (0.1 s first-sample
default), derives `isMoving` with the 0.5 m/s threshold, and publishes
the final `ProcessedResult` to the fan-out channel. -/
def VelocitySmootherWorker.processMessage {τ : Type} (V : VelEngine τ)
    (w : Stage3World τ) (messageId : String) (m : Stage2Msg) : Stage3Result τ :=
  if m.sensorId = "" then ⟨w, [WEvent.ack messageId]⟩
  else
    let st := (w.states m.sensorId).getD ⟨fun _ => 0, 0, 0⟩
    let dt : ℚ := if st.lastTimestamp > 0 then (m.timestamp - st.lastTimestamp) / 1000 else 1 / 10
    let buf := writeBuffer st.velocityBuffer st.velocityIndex m.velocity
    let idx := (st.velocityIndex + 1) % VELOCITY_WINDOW_SIZE
    let vres := V.step w.velES buf dt
    let smoothedVelocity := vres.2
    let isMoving := decide (smoothedVelocity > MOVEMENT_THRESHOLD)
    let r : ProcessedResult :=
      { sensorId := m.sensorId, lat := m.lat, lon := m.lon, timestamp := m.timestamp
        smoothedLat := m.smoothedLat, smoothedLon := m.smoothedLon
        velocity := m.velocity, smoothedVelocity := smoothedVelocity, isMoving := isMoving }
    { world :=
        { states := Function.update w.states m.sensorId (some ⟨buf, idx, m.timestamp⟩)
          velES := vres.1 }
      events := [WEvent.velStep dt, WEvent.publish r, WEvent.ack messageId] }

def VelocitySmootherWorker.run {τ : Type} (V : VelEngine τ) (w : Stage3World τ) :
    List Stage2Msg → Stage3Result τ
  | [] => ⟨w, []⟩
  | m :: rest =>
    let s := VelocitySmootherWorker.processMessage V w "" m
    let r := VelocitySmootherWorker.run V s.world rest
    ⟨r.world, s.events ++ r.events⟩

/-! ## The two topologies over one input sequence -/

def initMonoWorld {σ τ : Type} (es : σ) (vs : τ) : MonoWorld σ τ :=
  ⟨fun _ => none, es, vs⟩

def initStage1World {σ : Type} (es : σ) : Stage1World σ := ⟨fun _ => none, es⟩

def initStage2World : Stage2World := ⟨fun _ => none⟩

def initStage3World {τ : Type} (vs : τ) : Stage3World τ := ⟨fun _ => none, vs⟩

/-- Result sequence of the single-stage topology on an input sequence,
starting from empty state with the given engine states. -/
def monoTopology {σ τ : Type} (T : TrigOps) (E : PosEngine σ) (V : VelEngine τ)
    (es : σ) (vs : τ) (msgs : List (String × RawMsg)) : List ProcessedResult :=
  publishedOf (GPSWorker.run T E V (initMonoWorld es vs) msgs).events

/-- Result sequence of the multi-stage topology on the same input
sequence: the position smoother consumes the raw stream, the velocity
calculator its output stream, the velocity smoother the calculator's
output stream, which publishes the final results. -/
def multiTopology {σ τ : Type} (T : TrigOps) (E : PosEngine σ) (V : VelEngine τ)
    (es : σ) (vs : τ) (msgs : List (String × RawMsg)) : List ProcessedResult :=
  let s1 := PositionSmootherWorker.run E (initStage1World es) msgs
  let s2 := VelocityCalculatorWorker.run T initStage2World s1.outs
  let s3 := VelocitySmootherWorker.run V (initStage3World vs) s2.outs
  publishedOf s3.events

/-- Correspondence between the monolithic worker's context and the three
stage workers' contexts: equal engine states, and for every sensor either
no state anywhere or matching per-stage fragments of the monolithic
per-sensor state (with a positive stored timestamp). -/
def TopoInv {σ τ : Type} (w : MonoWorld σ τ) (u1 : Stage1World σ) (u2 : Stage2World)
    (u3 : Stage3World τ) : Prop :=
  w.posES = u1.posES ∧ w.velES = u3.velES ∧
  ∀ s : String,
    (w.store s = none → u1.states s = none ∧ u2.states s = none ∧ u3.states s = none) ∧
    (∀ ks, w.store s = some ks → 0 < ks.lastTimestamp ∧
      u1.states s = some ⟨ks.lastTimestamp⟩ ∧
      u2.states s = some ⟨ks.x0, ks.x1, ks.lastTimestamp⟩ ∧
      u3.states s = some ⟨ks.velocityBuffer, ks.velocityIndex, ks.lastTimestamp⟩)

/-! ## Helper lemmas -/

theorem leEncode_length (k v : Nat) : (leEncode k v).length = k := by
  induction k generalizing v with
  | zero => rfl
  | succ k ih => simp [leEncode, ih]

theorem leDecode_leEncode (k v : Nat) (h : v < 256 ^ k) :
    leDecode (leEncode k v) = v := by
  induction k generalizing v with
  | zero => simp [leEncode, leDecode]; omega
  | succ k ih =>
    have hdiv : v / 256 < 256 ^ k := by
      rw [Nat.div_lt_iff_lt_mul (by norm_num)]
      calc v < 256 ^ (k + 1) := h
        _ = 256 ^ k * 256 := by ring
    simp [leEncode, leDecode, ih (v / 256) hdiv]
    omega

theorem take_leEncode_append (k v : Nat) (rest : List Nat) :
    ((leEncode k v) ++ rest).take k = leEncode k v := by
  rw [List.take_append_of_le_length (by rw [leEncode_length])]
  simp [leEncode_length]

theorem drop_leEncode_append (k v : Nat) (rest : List Nat) :
    ((leEncode k v) ++ rest).drop k = rest := by
  rw [List.drop_append_of_le_length (by rw [leEncode_length])]
  simp [leEncode_length]

theorem readLE_leEncode_append (k v : Nat) (rest : List Nat) (h : v < 256 ^ k) :
    readLE k (leEncode k v ++ rest) = (v, rest) := by
  simp [readLE, take_leEncode_append, drop_leEncode_append, leDecode_leEncode k v h]

theorem serializeAppState_length (s : AppState) :
    (serializeAppState s).length = 68 := by
  simp [serializeAppState, leEncode_length]

theorem deserializeAppState_serializeAppState (s : AppState) (h : s.wf) :
    deserializeAppState (serializeAppState s) = s := by
  obtain ⟨hb, hi, ht, hla, hlo⟩ := h
  have e4 : leEncode 8 s.prevLon = leEncode 8 s.prevLon ++ [] := by simp
  simp only [serializeAppState, List.append_assoc, deserializeAppState]
  rw [e4, readLE_leEncode_append 8 _ _ (hb 0), readLE_leEncode_append 8 _ _ (hb 1),
    readLE_leEncode_append 8 _ _ (hb 2), readLE_leEncode_append 8 _ _ (hb 3),
    readLE_leEncode_append 8 _ _ (hb 4), readLE_leEncode_append 4 _ _ hi,
    readLE_leEncode_append 8 _ _ ht, readLE_leEncode_append 8 _ _ hla,
    readLE_leEncode_append 8 _ _ hlo]
  obtain ⟨vb, vi, lt, pla, plo⟩ := s
  simp only [AppState.mk.injEq, and_true, true_and]
  funext i
  fin_cases i <;> rfl

/-! ## Claim theorems -/

/-- C6: for every valid `SensorState` (velocity index a non-negative
integer below 2^32, all numeric fields 64-bit doubles), deserializing the
serialized little-endian binary form yields a state equal to the
original, and the serialized form is exactly 68 bytes. -/
theorem c6_appState_roundtrip (s : AppState) (h : s.wf) :
    deserializeAppState (serializeAppState s) = s ∧ (serializeAppState s).length = 68 :=
  ⟨deserializeAppState_serializeAppState s h, serializeAppState_length s⟩

/-- C6 witness: the round-trip at the all-zero initial state and at a
state with a full (all slots non-zero) velocity buffer. -/
theorem c6_appState_roundtrip_witness :
    (deserializeAppState (serializeAppState
        { velocityBuffer := fun _ => 0, velocityIndex := 0, lastTimestamp := 0
          prevLat := 0, prevLon := 0 }) =
      { velocityBuffer := fun _ => 0, velocityIndex := 0, lastTimestamp := 0
        prevLat := 0, prevLon := 0 }) ∧
    (deserializeAppState (serializeAppState
        { velocityBuffer := ![4607182418800017408, 4611686018427387904, 2, 3, 18446744073709551615]
          velocityIndex := 4, lastTimestamp := 4696837146684686336
          prevLat := 4630826316843712512, prevLon := 4638387860140664056 }) =
      { velocityBuffer := ![4607182418800017408, 4611686018427387904, 2, 3, 18446744073709551615]
        velocityIndex := 4, lastTimestamp := 4696837146684686336
        prevLat := 4630826316843712512, prevLon := 4638387860140664056 }) :=
  ⟨(c6_appState_roundtrip _ (by decide)).1, (c6_appState_roundtrip _ (by decide)).1⟩

/-- C7: a stored record whose byte length differs from the expected fixed
size is treated as not-found: the 68-byte loader returns the same
initial state that a missing record yields, and the 212-byte loader
returns `none`; in neither case is the buffer deserialized into a
state. -/
theorem c7_loadState_length_guard (b : List Nat) :
    (b.length ≠ 68 →
      loadState (some b) = initialLoadAppState ∧ loadState (some b) = loadState none) ∧
    (b.length ≠ 212 →
      loadStateKalman (some b) = none ∧ loadStateKalman (some b) = loadStateKalman none) := by
  constructor
  · intro h
    simp [loadState, h]
  · intro h
    simp [loadStateKalman, h]

/-- C7 witness: a one-byte (truncated) record is treated as not-found by
both loaders. -/
theorem c7_loadState_length_guard_witness :
    (loadState (some [7]) = initialLoadAppState ∧ loadState (some [7]) = loadState none) ∧
    (loadStateKalman (some [7]) = none ∧ loadStateKalman (some [7]) = loadStateKalman none) :=
  ⟨(c7_loadState_length_guard [7]).1 (by decide), (c7_loadState_length_guard [7]).2 (by decide)⟩

/-- C9: for every engine and input, the published `isMoving` flag is the
strict comparison `smoothedVelocity > 0.5`; in particular a smoothed
velocity of exactly 0.5 m/s yields `isMoving = false`. -/
theorem c9_isMoving_strict {σ τ : Type} (T : TrigOps) (E : PosEngine σ) (V : VelEngine τ)
    (es : σ) (vs : τ) (point : GPSPoint) (state : KalmanState) :
    ((GPSPipeline.process T E V es vs point state).result.isMoving = true ↔
      MOVEMENT_THRESHOLD < (GPSPipeline.process T E V es vs point state).result.smoothedVelocity) ∧
    ((GPSPipeline.process T E V es vs point state).result.smoothedVelocity = MOVEMENT_THRESHOLD →
      (GPSPipeline.process T E V es vs point state).result.isMoving = false) := by
  constructor
  · simp [GPSPipeline.process]
  · intro h
    simp [GPSPipeline.process] at h ⊢
    exact le_of_eq h

/-- C9 witness: with a velocity engine that reports exactly 0.5 m/s the
published flag is `false` — the tie is not moving. -/
theorem c9_isMoving_strict_witness :
    (GPSPipeline.process ⟨0, fun _ => 0, fun _ => 0, fun _ _ => 0, fun _ => 0⟩
        ⟨fun s lat lon _ => (s, lat, lon)⟩ ⟨fun s _ _ => (s, 1 / 2)⟩ () ()
        ⟨1, 2, 1000⟩ (createInitialState 1 2 1000)).result.isMoving = false :=
  (c9_isMoving_strict _ _ _ _ _ _ _).2 rfl

/-- C8: the distance function is exactly the haversine formula on a
sphere of radius 6 371 000 m as the spec states it, and both call sites
— the monolithic pipeline's instantaneous velocity and the
velocity-calculator worker — return `distance / dt` when `dt > 0` and
exactly `0` otherwise. -/
theorem c8_haversine_velocity :
    (∀ (T : TrigOps) (lat1 lon1 lat2 lon2 : ℚ),
      haversineDistance T lat1 lon1 lat2 lon2 = haversineSpecDistance T lat1 lon1 lat2 lon2) ∧
    (∀ (σ τ : Type) (T : TrigOps) (E : PosEngine σ) (V : VelEngine τ) (es : σ) (vs : τ)
      (point : GPSPoint) (state : KalmanState),
      (GPSPipeline.process T E V es vs point state).result.velocity =
        if 0 < (GPSPipeline.process T E V es vs point state).dt then
          haversineDistance T state.x0 state.x1
              (GPSPipeline.process T E V es vs point state).result.smoothedLat
              (GPSPipeline.process T E V es vs point state).result.smoothedLon /
            (GPSPipeline.process T E V es vs point state).dt
        else 0) ∧
    (∀ (T : TrigOps) (w : Stage2World) (messageId : String) (m : Stage1Msg)
      (st : VelocityState), m.sensorId ≠ "" → w.states m.sensorId = some st →
      (VelocityCalculatorWorker.processMessage T w messageId m).outs =
        [⟨m.sensorId, m.lat, m.lon, m.smoothedLat, m.smoothedLon,
          if 0 < (m.timestamp - st.lastTimestamp) / 1000 then
            haversineDistance T st.lastLat st.lastLon m.smoothedLat m.smoothedLon /
              ((m.timestamp - st.lastTimestamp) / 1000)
          else 0, m.timestamp⟩]) := by
  refine ⟨?_, ?_, ?_⟩
  · intro T a b c d
    simp only [haversineDistance, haversineSpecDistance, EARTH_RADIUS]
    have h1 : (c - a) * T.pi / 180 / 2 = (c * T.pi / 180 - a * T.pi / 180) / 2 := by ring
    have h2 : (d - b) * T.pi / 180 / 2 = (d * T.pi / 180 - b * T.pi / 180) / 2 := by ring
    rw [h1, h2]
    ring_nf
  · intro σ τ T E V es vs point state
    rfl
  · intro T w messageId m st hne hst
    simp [VelocityCalculatorWorker.processMessage, hne, hst]

/-- C8 witness: the velocity calculator at a concrete message with a
remembered previous position. -/
theorem c8_haversine_velocity_witness :
    (VelocityCalculatorWorker.processMessage ⟨0, fun _ => 0, fun _ => 0, fun _ _ => 0, fun _ => 0⟩
        ⟨fun _ => some ⟨1, 2, 1000⟩⟩ "2-0" ⟨"S1", 3, 4, 5, 6, 2000⟩).outs =
      [⟨"S1", 3, 4, 5, 6,
        if 0 < ((2000 : ℚ) - 1000) / 1000 then
          haversineDistance ⟨0, fun _ => 0, fun _ => 0, fun _ _ => 0, fun _ => 0⟩ 1 2 5 6 /
            (((2000 : ℚ) - 1000) / 1000)
        else 0, 2000⟩] :=
  c8_haversine_velocity.2.2 _ _ _ _ _ (by decide) rfl

/-- C5: a message failing validation of sensorId/lat/lon/timestamp is
acknowledged immediately with no other side effect — in both the
monolithic worker and the position smoother the world (and so the
per-sensor state) is unchanged and the whole event trace is the single
acknowledgement: no state load, mutation, save, or publish happens. -/
theorem c5_malformed_ack_only {σ : Type} {τ : Type} (T : TrigOps) (E : PosEngine σ)
    (V : VelEngine τ) (w : MonoWorld σ τ) (u : Stage1World σ) (messageId : String)
    (m : RawMsg) (h : ¬ m.valid) :
    GPSWorker.processMessage T E V w messageId m = ⟨w, [WEvent.ack messageId]⟩ ∧
    PositionSmootherWorker.processMessage E u messageId m = ⟨u, [WEvent.ack messageId], []⟩ := by
  obtain ⟨sid, la, lo, ts⟩ := m
  rcases la with _ | la
  · exact ⟨rfl, rfl⟩
  rcases lo with _ | lo
  · exact ⟨rfl, rfl⟩
  rcases ts with _ | ts
  · exact ⟨rfl, rfl⟩
  have hsid : sid = "" := by
    by_contra hs
    exact h ⟨hs, rfl, rfl, rfl⟩
  subst hsid
  exact ⟨by simp [GPSWorker.processMessage], by simp [PositionSmootherWorker.processMessage]⟩

/-- C5 witness: a message with an unparseable latitude is acknowledged
and nothing else happens. -/
theorem c5_malformed_ack_only_witness :
    GPSWorker.processMessage ⟨0, fun _ => 0, fun _ => 0, fun _ _ => 0, fun _ => 0⟩
        ⟨fun s lat lon _ => (s, lat, lon)⟩ ⟨fun s _ _ => (s, 0)⟩
        (initMonoWorld () ()) "9-0" ⟨"S1", none, some 1, some 2⟩ =
      ⟨initMonoWorld () (), [WEvent.ack "9-0"]⟩ ∧
    PositionSmootherWorker.processMessage ⟨fun s lat lon _ => (s, lat, lon)⟩
        (initStage1World ()) "9-0" ⟨"S1", none, some 1, some 2⟩ =
      ⟨initStage1World (), [WEvent.ack "9-0"], []⟩ :=
  c5_malformed_ack_only _ _ _ _ _ _ _ (by decide)

/-- C3: for a (valid) delivered message, the acknowledgement is present
in the worker's trace, the state save and the result publish are
present, and every initial segment of the trace that already contains
the acknowledgement also contains the state save and the publish — the
acknowledgement never precedes either side effect. -/
theorem c3_ack_after_side_effects {σ : Type} {τ : Type} (T : TrigOps) (E : PosEngine σ)
    (V : VelEngine τ) (w : MonoWorld σ τ) (messageId : String) (m : RawMsg)
    (h : m.valid) :
    WEvent.ack messageId ∈ (GPSWorker.processMessage T E V w messageId m).events ∧
    WEvent.stateSave m.sensorId ∈ (GPSWorker.processMessage T E V w messageId m).events ∧
    (∃ r, WEvent.publish r ∈ (GPSWorker.processMessage T E V w messageId m).events) ∧
    ∀ n, WEvent.ack messageId ∈ ((GPSWorker.processMessage T E V w messageId m).events.take n) →
      WEvent.stateSave m.sensorId ∈
          ((GPSWorker.processMessage T E V w messageId m).events.take n) ∧
        ∃ r, WEvent.publish r ∈ ((GPSWorker.processMessage T E V w messageId m).events.take n) := by
  obtain ⟨hsid, hla, hlo, hts⟩ := h
  obtain ⟨sid, la, lo, ts⟩ := m
  rcases la with _ | la
  · simp at hla
  rcases lo with _ | lo
  · simp at hlo
  rcases ts with _ | ts
  · simp at hts
  simp only at hsid
  simp only [GPSWorker.processMessage, if_neg hsid]
  refine ⟨by simp, by simp, ?_, ?_⟩
  · exact ⟨_, List.mem_cons_of_mem _ (List.mem_cons_of_mem _ (List.mem_cons_of_mem _
      (List.mem_cons_of_mem _ (List.mem_cons_self _ _))))⟩
  · intro n hn
    rcases n with _ | _ | _ | _ | _ | _ | n
    · simp at hn
    · simp [List.take] at hn
    · simp [List.take] at hn
    · simp [List.take] at hn
    · simp [List.take] at hn
    · simp [List.take] at hn
    · constructor
      · simp [List.take]
      · simp only [List.take_succ_cons, List.take_nil]
        exact ⟨_, List.mem_cons_of_mem _ (List.mem_cons_of_mem _ (List.mem_cons_of_mem _
          (List.mem_cons_of_mem _ (List.mem_cons_self _ _))))⟩

/-- C3 witness: a concrete valid message is acknowledged and the
acknowledgement sits behind the save and the publish. -/
theorem c3_ack_after_side_effects_witness :
    RawMsg.valid ⟨"S1", some 1, some 2, some 1000⟩ ∧
    WEvent.ack "1-0" ∈
      (GPSWorker.processMessage ⟨0, fun _ => 0, fun _ => 0, fun _ _ => 0, fun _ => 0⟩
          ⟨fun s lat lon _ => (s, lat, lon)⟩ ⟨fun s _ _ => (s, 0)⟩ (initMonoWorld () ()) "1-0"
          ⟨"S1", some 1, some 2, some 1000⟩).events :=
  ⟨by decide, (c3_ack_after_side_effects _ _ _ _ _ _ (by decide)).1⟩

/-- C10: the velocity calculator and position smoother touch no shared
per-sensor state store (their traces never contain a store read or
write); consequently, whenever a velocity-calculator instance holds no
in-memory entry for a sensor — as after any restart, or on the first
message this group member sees for the sensor — the message is published
with velocity exactly 0. -/
theorem c10_stage_state_local :
    (∀ (T : TrigOps) (w : Stage2World) (messageId : String) (m : Stage1Msg),
      m.sensorId ≠ "" → w.states m.sensorId = none →
      (VelocityCalculatorWorker.processMessage T w messageId m).outs =
        [⟨m.sensorId, m.lat, m.lon, m.smoothedLat, m.smoothedLon, 0, m.timestamp⟩]) ∧
    (∀ (T : TrigOps) (w : Stage2World) (msgs : List Stage1Msg) (s : String),
      WEvent.stateLoad s ∉ (VelocityCalculatorWorker.run T w msgs).events ∧
      WEvent.stateSave s ∉ (VelocityCalculatorWorker.run T w msgs).events) ∧
    (∀ (σ : Type) (E : PosEngine σ) (w : Stage1World σ) (msgs : List (String × RawMsg))
      (s : String),
      WEvent.stateLoad s ∉ (PositionSmootherWorker.run E w msgs).events ∧
      WEvent.stateSave s ∉ (PositionSmootherWorker.run E w msgs).events) := by
  refine ⟨?_, ?_, ?_⟩
  · intro T w messageId m hne hst
    simp [VelocityCalculatorWorker.processMessage, hne, hst]
  · intro T w msgs
    induction msgs generalizing w with
    | nil => intro s; simp [VelocityCalculatorWorker.run]
    | cons m rest ih =>
      intro s
      have hih := ih (VelocityCalculatorWorker.processMessage T w "" m).world s
      simp only [VelocityCalculatorWorker.run, List.mem_append, not_or]
      by_cases hm : m.sensorId = "" <;>
        exact ⟨⟨by simp [VelocityCalculatorWorker.processMessage, hm], hih.1⟩,
          ⟨by simp [VelocityCalculatorWorker.processMessage, hm], hih.2⟩⟩
  · intro σ E w msgs
    induction msgs generalizing w with
    | nil => intro s; simp [PositionSmootherWorker.run]
    | cons p rest ih =>
      intro s
      obtain ⟨mid, m⟩ := p
      obtain ⟨sid, la, lo, ts⟩ := m
      have hih := ih (PositionSmootherWorker.processMessage E w mid ⟨sid, la, lo, ts⟩).world s
      simp only [PositionSmootherWorker.run, List.mem_append, not_or]
      rcases la with _ | la <;> rcases lo with _ | lo <;> rcases ts with _ | ts <;>
        by_cases hm : sid = "" <;>
          exact ⟨⟨by simp [PositionSmootherWorker.processMessage, hm], hih.1⟩,
            ⟨by simp [PositionSmootherWorker.processMessage, hm], hih.2⟩⟩

/-- C10 witness: a fresh velocity-calculator instance publishes its first
message for a sensor with velocity 0. -/
theorem c10_stage_state_local_witness :
    (VelocityCalculatorWorker.processMessage ⟨0, fun _ => 0, fun _ => 0, fun _ _ => 0, fun _ => 0⟩
        initStage2World "3-0" ⟨"S1", 1, 2, 3, 4, 1000⟩).outs =
      [⟨"S1", 1, 2, 3, 4, 0, 1000⟩] :=
  c10_stage_state_local.1 _ _ _ _ (by decide) rfl

/-- C2 (code defect): for a sensor with no prior state, processing its
first fix — whenever the fix's timestamp is positive, as
epoch-millisecond timestamps are — feeds an elapsed-time delta of
exactly 0, not the non-zero 0.1 s default, to both the position
smoothing engine and the velocity smoothing engine:
`createInitialState` sets `lastTimestamp` to the fix's own timestamp, so
the pipeline's `lastTimestamp > 0` branch computes `(ts − ts)/1000 = 0`
and the 0.1 s first-point default is unreachable. -/
theorem c2_first_fix_dt_zero {σ : Type} {τ : Type} (T : TrigOps) (E : PosEngine σ)
    (V : VelEngine τ) (es : σ) (vs : τ) (lat lon ts : ℚ) (hts : 0 < ts) :
    ((GPSWorker.processMessage T E V (initMonoWorld es vs) "1-0"
        ⟨"S1", some lat, some lon, some ts⟩).events.filterMap fun e =>
        match e with
        | WEvent.posStep dt => some dt
        | WEvent.velStep dt => some dt
        | _ => none) = [0, 0] := by
  have hdt : (GPSPipeline.process T E V es vs ⟨lat, lon, ts⟩
      (createInitialState lat lon ts)).dt = 0 := by
    simp [GPSPipeline.process, createInitialState, hts]
  simp [GPSWorker.processMessage, initMonoWorld, hdt]

/-- C2 witness: a first fix at timestamp 1000 ms is processed with
engine deltas 0 and 0. -/
theorem c2_first_fix_dt_zero_witness :
    ((GPSWorker.processMessage ⟨0, fun _ => 0, fun _ => 0, fun _ _ => 0, fun _ => 0⟩
        ⟨fun s lat lon _ => (s, lat, lon)⟩ ⟨fun s _ _ => (s, 0)⟩
        (initMonoWorld () ()) "1-0"
        ⟨"S1", some 1, some 2, some 1000⟩).events.filterMap fun e =>
        match e with
        | WEvent.posStep dt => some dt
        | WEvent.velStep dt => some dt
        | _ => none) = [0, 0] :=
  c2_first_fix_dt_zero _ _ _ _ _ _ _ _ (by norm_num)

/-- A fresh-delivery processing trace never contains a pending-entry
claim event. -/
theorem xclaim_not_in_processMessage {σ : Type} {τ : Type} (T : TrigOps) (E : PosEngine σ)
    (V : VelEngine τ) (w : MonoWorld σ τ) (messageId id : String) (m : RawMsg) :
    WEvent.xclaim id ∉ (GPSWorker.processMessage T E V w messageId m).events := by
  obtain ⟨sid, la, lo, ts⟩ := m
  rcases la with _ | la <;> rcases lo with _ | lo <;> rcases ts with _ | ts <;>
    by_cases hm : sid = "" <;> simp [GPSWorker.processMessage, hm]

/-- C4: during recovery, a claim event for a message id is issued exactly
when some enumerated pending entry with that id has been idle for at
least the 30 s threshold; an entry past the threshold whose claim
returns the message is processed through `GPSWorker.processMessage`, the
same path as a fresh delivery; an entry idle for less than the threshold
is left completely untouched. -/
theorem c4_recovery_claims {σ : Type} {τ : Type} (T : TrigOps) (E : PosEngine σ)
    (V : VelEngine τ) (claimed : String → Option RawMsg) (w : MonoWorld σ τ)
    (entries : List PendingEntry) :
    (∀ id, WEvent.xclaim id ∈
        (GPSWorker.recoverPendingMessages T E V claimed w entries).events ↔
        ∃ e ∈ entries, e.messageId = id ∧ 30000 ≤ e.idleTime) ∧
    (∀ e m, 30000 ≤ e.idleTime → claimed e.messageId = some m →
      GPSWorker.recoverPendingMessages T E V claimed w [e] =
        ⟨(GPSWorker.processMessage T E V w e.messageId m).world,
          WEvent.xclaim e.messageId :: (GPSWorker.processMessage T E V w e.messageId m).events⟩) ∧
    (∀ e, e.idleTime < 30000 →
      GPSWorker.recoverPendingMessages T E V claimed w [e] = ⟨w, []⟩) := by
  refine ⟨?_, ?_, ?_⟩
  · induction entries generalizing w with
    | nil => intro id; simp [GPSWorker.recoverPendingMessages]
    | cons e rest ih =>
      intro id
      by_cases hlt : e.idleTime < 30000
      · rw [show GPSWorker.recoverPendingMessages T E V claimed w (e :: rest) =
            GPSWorker.recoverPendingMessages T E V claimed w rest by
          simp [GPSWorker.recoverPendingMessages, hlt]]
        rw [ih w id]
        constructor
        · rintro ⟨e', he', h1, h2⟩
          exact ⟨e', List.mem_cons_of_mem _ he', h1, h2⟩
        · rintro ⟨e', he', h1, h2⟩
          rcases List.mem_cons.mp he' with h | h
          · subst h; omega
          · exact ⟨e', h, h1, h2⟩
      · rcases hc : claimed e.messageId with _ | m
        · rw [show (GPSWorker.recoverPendingMessages T E V claimed w (e :: rest)).events =
              WEvent.xclaim e.messageId ::
                (GPSWorker.recoverPendingMessages T E V claimed w rest).events by
            simp [GPSWorker.recoverPendingMessages, hlt, hc]]
          simp only [List.mem_cons]
          rw [ih w id]
          constructor
          · rintro (h | ⟨e', he', h1, h2⟩)
            · exact ⟨e, Or.inl rfl, (WEvent.xclaim.injEq _ _).mp h.symm, by omega⟩
            · exact ⟨e', Or.inr he', h1, h2⟩
          · rintro ⟨e', he', h1, h2⟩
            rcases he' with h | h
            · subst h; exact Or.inl (by rw [h1])
            · exact Or.inr ⟨e', h, h1, h2⟩
        · rw [show (GPSWorker.recoverPendingMessages T E V claimed w (e :: rest)).events =
              WEvent.xclaim e.messageId ::
                ((GPSWorker.processMessage T E V w e.messageId m).events ++
                  (GPSWorker.recoverPendingMessages T E V claimed
                    (GPSWorker.processMessage T E V w e.messageId m).world rest).events) by
            simp [GPSWorker.recoverPendingMessages, hlt, hc]]
          simp only [List.mem_cons, List.mem_append]
          rw [ih (GPSWorker.processMessage T E V w e.messageId m).world id]
          constructor
          · rintro (h | h | ⟨e', he', h1, h2⟩)
            · exact ⟨e, Or.inl rfl, (WEvent.xclaim.injEq _ _).mp h.symm, by omega⟩
            · exact absurd h (xclaim_not_in_processMessage T E V w e.messageId id m)
            · exact ⟨e', Or.inr he', h1, h2⟩
          · rintro ⟨e', he', h1, h2⟩
            rcases he' with h | h
            · subst h; exact Or.inl (by rw [h1])
            · exact Or.inr (Or.inr ⟨e', h, h1, h2⟩)
  · intro e m h30 hc
    have hlt : ¬ e.idleTime < 30000 := by omega
    simp [GPSWorker.recoverPendingMessages, hlt, hc]
  · intro e hlt
    simp [GPSWorker.recoverPendingMessages, hlt]

/-- C4 witness: of two concrete pending entries, the one idle 40 s is
claimed and the one idle 10 ms is left unclaimed. -/
theorem c4_recovery_claims_witness :
    WEvent.xclaim "7-0" ∈
      (GPSWorker.recoverPendingMessages ⟨0, fun _ => 0, fun _ => 0, fun _ _ => 0, fun _ => 0⟩
          ⟨fun s lat lon _ => (s, lat, lon)⟩ ⟨fun s _ _ => (s, 0)⟩
          (fun _ => some ⟨"S1", some 1, some 2, some 1000⟩) (initMonoWorld () ())
          [⟨"7-0", "w1", 40000, 2⟩, ⟨"8-0", "w1", 10, 1⟩]).events ∧
    WEvent.xclaim "8-0" ∉
      (GPSWorker.recoverPendingMessages ⟨0, fun _ => 0, fun _ => 0, fun _ _ => 0, fun _ => 0⟩
          ⟨fun s lat lon _ => (s, lat, lon)⟩ ⟨fun s _ _ => (s, 0)⟩
          (fun _ => some ⟨"S1", some 1, some 2, some 1000⟩) (initMonoWorld () ())
          [⟨"7-0", "w1", 40000, 2⟩, ⟨"8-0", "w1", 10, 1⟩]).events := by
  constructor
  · exact ((c4_recovery_claims _ _ _ _ _ _).1 "7-0").mpr
      ⟨⟨"7-0", "w1", 40000, 2⟩, by simp, rfl, by decide⟩
  · intro h
    obtain ⟨e, he, h1, h2⟩ := ((c4_recovery_claims _ _ _ _ _ _).1 "8-0").mp h
    simp only [List.mem_cons, List.not_mem_nil, or_false] at he
    rcases he with rfl | rfl
    · simp at h1
    · simp at h2

/-- C1 counterexample: with one and the same dt-sensitive position
engine and identical configuration, a single valid first fix already
produces different published results in the two topologies — the
monolithic worker hands the engine a 0 s delta (its freshly created
state has `lastTimestamp` equal to the fix's timestamp) while the
multi-stage position smoother hands the same engine the 0.1 s
first-sample default (its in-memory state starts at `lastTimestamp = 0`),
so the smoothed latitudes differ. -/
theorem c1_topology_counterexample :
    monoTopology ⟨0, fun _ => 0, fun _ => 0, fun _ _ => 0, fun _ => 0⟩
        ⟨fun s lat lon dt => (s, lat + dt, lon)⟩ ⟨fun s _ _ => (s, 0)⟩ () ()
        [("1-0", ⟨"S1", some 0, some 0, some 1000⟩)] ≠
      multiTopology ⟨0, fun _ => 0, fun _ => 0, fun _ _ => 0, fun _ => 0⟩
        ⟨fun s lat lon dt => (s, lat + dt, lon)⟩ ⟨fun s _ _ => (s, 0)⟩ () ()
        [("1-0", ⟨"S1", some 0, some 0, some 1000⟩)] := by
  norm_num [monoTopology, multiTopology, GPSWorker.run, GPSWorker.processMessage,
    GPSPipeline.process, PositionSmootherWorker.run, PositionSmootherWorker.processMessage,
    VelocityCalculatorWorker.run, VelocityCalculatorWorker.processMessage,
    VelocitySmootherWorker.run, VelocitySmootherWorker.processMessage,
    initMonoWorld, initStage1World, initStage2World, initStage3World,
    createInitialState, publishedOf, writeBuffer, VELOCITY_WINDOW_SIZE, MOVEMENT_THRESHOLD]
  rw [if_neg (show ¬("S1" = "") by decide), if_neg (show ¬("S1" = "") by decide)]
  norm_num [publishedOf, List.filterMap_cons, List.filterMap_nil]

theorem velocityCalculatorRun_append (T : TrigOps) (w : Stage2World)
    (xs ys : List Stage1Msg) :
    VelocityCalculatorWorker.run T w (xs ++ ys) =
      ⟨(VelocityCalculatorWorker.run T (VelocityCalculatorWorker.run T w xs).world ys).world,
        (VelocityCalculatorWorker.run T w xs).events ++
          (VelocityCalculatorWorker.run T (VelocityCalculatorWorker.run T w xs).world ys).events,
        (VelocityCalculatorWorker.run T w xs).outs ++
          (VelocityCalculatorWorker.run T (VelocityCalculatorWorker.run T w xs).world ys).outs⟩ := by
  induction xs generalizing w with
  | nil => simp [VelocityCalculatorWorker.run]
  | cons m rest ih =>
    simp [VelocityCalculatorWorker.run, ih, List.append_assoc]

theorem velocitySmootherRun_append {τ : Type} (V : VelEngine τ) (w : Stage3World τ)
    (xs ys : List Stage2Msg) :
    VelocitySmootherWorker.run V w (xs ++ ys) =
      ⟨(VelocitySmootherWorker.run V (VelocitySmootherWorker.run V w xs).world ys).world,
        (VelocitySmootherWorker.run V w xs).events ++
          (VelocitySmootherWorker.run V (VelocitySmootherWorker.run V w xs).world ys).events⟩ := by
  induction xs generalizing w with
  | nil => simp [VelocitySmootherWorker.run]
  | cons m rest ih =>
    simp [VelocitySmootherWorker.run, ih, List.append_assoc]

/-- One message through the monolithic worker publishes the same
records as the same message through the three chained stages, and the
topology invariant is preserved (dt-insensitive engines, positive
timestamp). -/
theorem topoStep {σ τ : Type} (T : TrigOps) (E : PosEngine σ) (V : VelEngine τ)
    (hE : ∀ s lat lon dt dt', E.step s lat lon dt = E.step s lat lon dt')
    (hV : ∀ s buf dt dt', V.step s buf dt = V.step s buf dt')
    (w : MonoWorld σ τ) (u1 : Stage1World σ) (u2 : Stage2World) (u3 : Stage3World τ)
    (hinv : TopoInv w u1 u2 u3) (id : String) (m : RawMsg)
    (hts : ∀ ts : ℚ, m.timestamp = some ts → 0 < ts) :
    publishedOf (GPSWorker.processMessage T E V w id m).events =
      publishedOf (VelocitySmootherWorker.run V u3
        (VelocityCalculatorWorker.run T u2
          (PositionSmootherWorker.processMessage E u1 id m).outs).outs).events ∧
    TopoInv (GPSWorker.processMessage T E V w id m).world
      (PositionSmootherWorker.processMessage E u1 id m).world
      (VelocityCalculatorWorker.run T u2
        (PositionSmootherWorker.processMessage E u1 id m).outs).world
      (VelocitySmootherWorker.run V u3
        (VelocityCalculatorWorker.run T u2
          (PositionSmootherWorker.processMessage E u1 id m).outs).outs).world := by
  obtain ⟨hpos, hvel, hst⟩ := hinv
  obtain ⟨sid, la, lo, ts⟩ := m
  rcases la with _ | la
  · exact ⟨rfl, hpos, hvel, hst⟩
  rcases lo with _ | lo
  · exact ⟨rfl, hpos, hvel, hst⟩
  rcases ts with _ | ts
  · exact ⟨rfl, hpos, hvel, hst⟩
  have hts0 : 0 < ts := hts ts rfl
  by_cases hsid : sid = ""
  · subst hsid
    exact ⟨rfl, hpos, hvel, hst⟩
  rcases hstore : w.store sid with _ | ks
  · obtain ⟨h1n, h2n, h3n⟩ := (hst sid).1 hstore
    simp only [GPSWorker.processMessage, PositionSmootherWorker.processMessage,
      VelocityCalculatorWorker.run, VelocityCalculatorWorker.processMessage,
      VelocitySmootherWorker.run, VelocitySmootherWorker.processMessage,
      GPSPipeline.process, publishedOf, createInitialState,
      hstore, h1n, h2n, h3n, hsid, hts0, if_neg hsid, Option.getD]
    norm_num [VELOCITY_WINDOW_SIZE, MOVEMENT_THRESHOLD]
    rw [hpos, hvel, hE u1.posES la lo 0 (1/10), hV u3.velES (writeBuffer (fun _ => 0) 0 0) 0 (1/10)]
    constructor
    · simp [List.filterMap_cons, List.filterMap_nil]
    · refine ⟨rfl, rfl, fun s => ⟨?_, ?_⟩⟩
      · intro h
        dsimp only at h ⊢
        by_cases hss : s = sid
        · subst hss
          rw [Function.update_same] at h
          simp at h
        · rw [Function.update_noteq hss] at h
          obtain ⟨a1, a2, a3⟩ := (hst s).1 h
          rw [Function.update_noteq hss, Function.update_noteq hss, Function.update_noteq hss]
          exact ⟨a1, a2, a3⟩
      · intro ks' hks'
        dsimp only at hks' ⊢
        by_cases hss : s = sid
        · subst hss
          rw [Function.update_same] at hks'
          injection hks' with hks'
          subst hks'
          refine ⟨hts0, ?_, ?_, ?_⟩ <;> rw [Function.update_same]
        · rw [Function.update_noteq hss] at hks'
          obtain ⟨a0, a1, a2, a3⟩ := (hst s).2 ks' hks'
          rw [Function.update_noteq hss, Function.update_noteq hss, Function.update_noteq hss]
          exact ⟨a0, a1, a2, a3⟩
  · obtain ⟨hkts, h1s, h2s, h3s⟩ := (hst sid).2 ks hstore
    simp only [GPSWorker.processMessage, PositionSmootherWorker.processMessage,
      VelocityCalculatorWorker.run, VelocityCalculatorWorker.processMessage,
      VelocitySmootherWorker.run, VelocitySmootherWorker.processMessage,
      GPSPipeline.process, publishedOf, createInitialState,
      hstore, h1s, h2s, h3s, hsid, hkts, if_neg hsid, Option.getD]
    norm_num [VELOCITY_WINDOW_SIZE, MOVEMENT_THRESHOLD]
    rw [hpos, hvel]
    constructor
    · simp [List.filterMap_cons, List.filterMap_nil]
    · refine ⟨rfl, rfl, fun s => ⟨?_, ?_⟩⟩
      · intro h
        dsimp only at h ⊢
        by_cases hss : s = sid
        · subst hss
          rw [Function.update_same] at h
          simp at h
        · rw [Function.update_noteq hss] at h
          obtain ⟨a1, a2, a3⟩ := (hst s).1 h
          rw [Function.update_noteq hss, Function.update_noteq hss, Function.update_noteq hss]
          exact ⟨a1, a2, a3⟩
      · intro ks' hks'
        dsimp only at hks' ⊢
        by_cases hss : s = sid
        · subst hss
          rw [Function.update_same] at hks'
          injection hks' with hks'
          subst hks'
          refine ⟨hts0, ?_, ?_, ?_⟩ <;> rw [Function.update_same]
        · rw [Function.update_noteq hss] at hks'
          obtain ⟨a0, a1, a2, a3⟩ := (hst s).2 ks' hks'
          rw [Function.update_noteq hss, Function.update_noteq hss, Function.update_noteq hss]
          exact ⟨a0, a1, a2, a3⟩

theorem publishedOf_append (a b : List WEvent) :
    publishedOf (a ++ b) = publishedOf a ++ publishedOf b :=
  List.filterMap_append a b _

theorem topoRunAux {σ τ : Type} (T : TrigOps) (E : PosEngine σ) (V : VelEngine τ)
    (hE : ∀ s lat lon dt dt', E.step s lat lon dt = E.step s lat lon dt')
    (hV : ∀ s buf dt dt', V.step s buf dt = V.step s buf dt')
    (msgs : List (String × RawMsg)) :
    ∀ (w : MonoWorld σ τ) (u1 : Stage1World σ) (u2 : Stage2World) (u3 : Stage3World τ),
      TopoInv w u1 u2 u3 →
      (∀ p ∈ msgs, ∀ ts : ℚ, p.2.timestamp = some ts → 0 < ts) →
      publishedOf (GPSWorker.run T E V w msgs).events =
        publishedOf (VelocitySmootherWorker.run V u3
          (VelocityCalculatorWorker.run T u2
            (PositionSmootherWorker.run E u1 msgs).outs).outs).events := by
  induction msgs with
  | nil => intro w u1 u2 u3 _ _; rfl
  | cons p rest ih =>
    intro w u1 u2 u3 hinv hts
    obtain ⟨hpub, hinv'⟩ := topoStep T E V hE hV w u1 u2 u3 hinv p.1 p.2
      (hts p (List.mem_cons_self p rest))
    simp only [GPSWorker.run, PositionSmootherWorker.run]
    rw [velocityCalculatorRun_append, velocitySmootherRun_append]
    dsimp only
    rw [publishedOf_append, publishedOf_append, hpub,
      ih _ _ _ _ hinv' (fun q hq => hts q (List.mem_cons_of_mem _ hq))]

/-- C1 amended: the two topologies produce identical result sequences
for an input sequence of positive-timestamp fixes provided the DSP
engines' outputs and state transitions do not depend on the
elapsed-time delta input; without that proviso they differ already at a
sensor's first fix (see the counterexample), because the monolithic
path feeds the engines dt = 0 there while the multi-stage path feeds
the 0.1 s default. -/
theorem c1_topology_equiv_of_dt_insensitive {σ τ : Type} (T : TrigOps)
    (E : PosEngine σ) (V : VelEngine τ)
    (hE : ∀ s lat lon dt dt', E.step s lat lon dt = E.step s lat lon dt')
    (hV : ∀ s buf dt dt', V.step s buf dt = V.step s buf dt')
    (es : σ) (vs : τ) (msgs : List (String × RawMsg))
    (hts : ∀ p ∈ msgs, ∀ ts : ℚ, p.2.timestamp = some ts → 0 < ts) :
    monoTopology T E V es vs msgs = multiTopology T E V es vs msgs := by
  have hinv : TopoInv (initMonoWorld es vs) (initStage1World es) initStage2World
      (initStage3World vs) :=
    ⟨rfl, rfl, fun s => ⟨fun _ => ⟨rfl, rfl, rfl⟩,
      fun ks h => by simp [initMonoWorld] at h⟩⟩
  exact topoRunAux T E V hE hV msgs _ _ _ _ hinv hts

/-- C1 witness: a concrete two-fix sequence through concrete
dt-insensitive engines yields the same published sequence in both
topologies. -/
theorem c1_topology_equiv_witness :
    monoTopology ⟨0, fun _ => 0, fun _ => 0, fun _ _ => 0, fun _ => 0⟩
        ⟨fun s lat lon _ => (s, lat, lon)⟩ ⟨fun s buf _ => (s, buf 0)⟩ () ()
        [("1-0", ⟨"S1", some 1, some 2, some 1000⟩), ("1-1", ⟨"S1", some 3, some 4, some 2000⟩)] =
      multiTopology ⟨0, fun _ => 0, fun _ => 0, fun _ _ => 0, fun _ => 0⟩
        ⟨fun s lat lon _ => (s, lat, lon)⟩ ⟨fun s buf _ => (s, buf 0)⟩ () ()
        [("1-0", ⟨"S1", some 1, some 2, some 1000⟩), ("1-1", ⟨"S1", some 3, some 4, some 2000⟩)] := by
  refine c1_topology_equiv_of_dt_insensitive _ _ _ (fun _ _ _ _ _ => rfl) (fun _ _ _ _ => rfl)
    _ _ _ ?_
  intro p hp ts h
  fin_cases hp <;> simp only [Option.some.injEq] at h <;> rw [← h] <;> norm_num
